import Mathlib

/-!
Shallow embedding of the egocentric occupancy-grid builder of
`neuro_local_planner_wrapper` (file
`src/neuro_local_planner_wrapper/src/neuro_local_planner_wrapper.cpp`),
covering the grid model, the scan rasterizer, the path rasterizer, the
temporal stack buffer and the per-scan update orchestrator
(`NeuroLocalPlannerWrapper::getLaserScanPoints`,
`initializeCustomizedCostmap`, `initializeTransitionMsg`, `setPlan`).

Modelling conventions:
* C `double` arithmetic is embedded as exact rational arithmetic (`ℚ`);
  every concrete input appearing in the verified scenarios is exactly
  representable in binary floating point, so the rational values coincide
  with the C doubles bit for bit.
* `cos`/`sin` (used on the sample angle and the transform yaw) are not
  rational-valued functions, so the rasterizer is parameterised by the
  trigonometric functions `cosF sinF : ℚ → ℚ`; theorems about concrete
  scans constrain them only at the angles actually used (e.g.
  `cosF 0 = 1`, `sinF 0 = 0`, which hold for the real `cos`/`sin`).
* IEEE `0.0/0.0` is `NaN`, and converting `NaN` to an integer type is
  undefined; an expression whose value would be `NaN`-derived is embedded
  as `Option.none`.
* A thrown C++ exception that the source does not catch
  (`std::vector::at` out of range in `setPlan`) is likewise embedded as
  `Option.none`.
* The tf transform lookups are external collaborators; they enter as a
  `Transform` (latest available transform for the scan) and as an oracle
  `tfPose : ℕ → Option (ℚ × ℚ)` giving, for each global-plan pose index,
  the transformed grid-frame position, or `none` when
  `waitForTransform`/`transformPose` throws for that pose.
-/

namespace NeuroWrapper

/-- C `round`: round to nearest integer, halfway cases away from zero
(used by the source at lines 401-402 and 442-443). -/
def cround (q : ℚ) : ℤ := if 0 ≤ q then ⌊q + 1/2⌋ else ⌈q - 1/2⌉

/-- The customized costmap (`nav_msgs::OccupancyGrid` `customized_costmap_`):
geometry (`info.width`, `info.height`, `info.resolution`,
`info.origin.position.x/y`) and the cell buffer `data`. -/
structure Grid where
  width : ℕ
  height : ℕ
  resolution : ℚ
  originX : ℚ
  originY : ℚ
  data : List ℤ
  deriving Repr, DecidableEq

/-- `customized_costmap_.data[x + y*width] = v` (source lines 405, 457). -/
def setCell (g : Grid) (x y : ℤ) (v : ℤ) : Grid :=
  { g with data := g.data.set (x + y * (g.width : ℤ)).toNat v }

/-- Read back the cell at `(x, y)` from the buffer (index `x + y*width`). -/
def getCell (g : Grid) (x y : ℤ) : ℤ :=
  g.data.getD (x + y * (g.width : ℤ)).toNat 0

/-- The per-scan clear step (source lines 339-342): a fresh
`width*height` buffer every cell of which holds 70; geometry untouched. -/
def clearGrid (g : Grid) : Grid :=
  { g with data := List.replicate (g.width * g.height) 70 }

/-- The externally supplied costmap geometry
(`costmap_->getSizeInCellsX/Y()`, `getResolution()`,
`getSizeInMetersX/Y()`). -/
structure CostmapGeom where
  sizeInCellsX : ℕ
  sizeInCellsY : ℕ
  resolution : ℚ
  sizeInMetersX : ℚ
  sizeInMetersY : ℚ
  deriving Repr, DecidableEq

/-- `NeuroLocalPlannerWrapper::initializeCustomizedCostmap` (source lines
259-286): geometry from the costmap, origin at the geometric center
offset, buffer filled with 70. -/
def initializeCustomizedCostmap (cm : CostmapGeom) : Grid :=
  { width := cm.sizeInCellsX
    height := cm.sizeInCellsY
    resolution := cm.resolution
    originX := -cm.sizeInMetersX / 2
    originY := -cm.sizeInMetersY / 2
    data := List.replicate (cm.sizeInCellsX * cm.sizeInCellsY) 70 }

/-- The transition message holding the temporal stack buffer
(`transition_msg_`): fixed geometry, depth, sequence number and the
accumulation sequence `state_representation`. -/
structure TransitionMsg where
  width : ℕ
  height : ℕ
  depth : ℕ
  seq : ℕ
  state_representation : List ℤ
  deriving Repr, DecidableEq

/-- `NeuroLocalPlannerWrapper::initializeTransitionMsg` (source lines
288-295): `depth` is fixed at 4, `seq` starts at 0; the accumulation
sequence of a fresh message is empty. -/
def initializeTransitionMsg (g : Grid) : TransitionMsg :=
  { width := g.width, height := g.height, depth := 4, seq := 0
    state_representation := [] }

/-- World-to-cell x-mapping as written at source line 401 (scan
rasterizer):
`round(((x - origin.x)/getSizeInMetersX())*width - 0.5)`. -/
def scanCellX (originX sizeMX : ℚ) (w : ℕ) (x : ℚ) : ℤ :=
  cround ((x - originX) / sizeMX * (w : ℚ) - 1/2)

/-- World-to-cell y-mapping as written at source line 402 (scan
rasterizer). -/
def scanCellY (originY sizeMY : ℚ) (h : ℕ) (y : ℚ) : ℤ :=
  cround ((y - originY) / sizeMY * (h : ℚ) - 1/2)

/-- World-to-cell x-mapping as written at source line 442 (path
rasterizer). -/
def pathCellX (originX sizeMX : ℚ) (w : ℕ) (x : ℚ) : ℤ :=
  cround ((x - originX) / sizeMX * (w : ℚ) - 1/2)

/-- World-to-cell y-mapping as written at source line 443 (path
rasterizer). -/
def pathCellY (originY sizeMY : ℚ) (h : ℕ) (y : ℚ) : ℤ :=
  cround ((y - originY) / sizeMY * (h : ℚ) - 1/2)

/-- Cell-validity guard as written at source line 403 (scan rasterizer):
`(x >= 0) && (y >= 0) && (x < width) && (y < height)`. -/
def scanCellValid (w h : ℕ) (x y : ℤ) : Bool :=
  decide (0 ≤ x) && decide (0 ≤ y) && decide (x < (w : ℤ)) && decide (y < (h : ℤ))

/-- Cell-validity guard as written at source line 444 (path rasterizer). -/
def pathCellValid (w h : ℕ) (x y : ℤ) : Bool :=
  decide (0 ≤ x) && decide (0 ≤ y) && decide (x < (w : ℤ)) && decide (y < (h : ℤ))

/-- The world-to-cell mapping as the specification words it:
`cellX = round(((x - origin.x) / widthMeters) * width - 0.5)` with C
round semantics. -/
def specWorldToCell (origin widthMeters : ℚ) (w : ℕ) (x : ℚ) : ℤ :=
  cround ((x - origin) / widthMeters * (w : ℚ) - 1/2)

/-- The rigid transform the scan rasterizer obtains from
`tf_->lookupTransform(..., ros::Time(0), stamped_transform)`: planar
translation and yaw. -/
structure Transform where
  tx : ℚ
  ty : ℚ
  yaw : ℚ
  deriving Repr, DecidableEq

/-- `sensor_msgs::LaserScan` fields the source reads: `ranges`,
`range_min`, `range_max`, `angle_min`, `angle_increment`. -/
structure LaserScan where
  ranges : List ℚ
  range_min : ℚ
  range_max : ℚ
  angle_min : ℚ
  angle_increment : ℚ

/-- Body of the scan loop for one in-range sample (source lines 380-406):
polar-to-Cartesian in the laser frame, translation, rotation by the
transform yaw, world-to-cell mapping, and the guarded write of 100. -/
def processScanSample (cosF sinF : ℚ → ℚ) (tr : Transform)
    (sizeMX sizeMY : ℚ) (angleMin angleInc : ℚ) (i : ℕ) (r : ℚ)
    (g : Grid) : Grid :=
  let angle := angleMin + (i : ℚ) * angleInc
  let xLaser := r * cosF angle
  let yLaser := r * sinF angle
  let xTrans := xLaser + tr.tx
  let yTrans := yLaser + tr.ty
  let xBase := cosF tr.yaw * xTrans - sinF tr.yaw * yTrans
  let yBase := sinF tr.yaw * xTrans + cosF tr.yaw * yTrans
  let x := scanCellX g.originX sizeMX g.width xBase
  let y := scanCellY g.originY sizeMY g.height yBase
  if scanCellValid g.width g.height x y then setCell g x y 100 else g

/-- The scan rasterizer loop (source lines 374-408): every sample whose
range is strictly inside `(range_min, range_max)` is processed; the
others are silently skipped. -/
def rasterizeScan (cosF sinF : ℚ → ℚ) (tr : Transform)
    (sizeMX sizeMY : ℚ) (scan : LaserScan) (g : Grid) : Grid :=
  scan.ranges.enum.foldl
    (fun acc ir =>
      if scan.range_min < ir.2 ∧ ir.2 < scan.range_max then
        processScanSample cosF sinF tr sizeMX sizeMY
          scan.angle_min scan.angle_increment ir.1 ir.2 acc
      else acc)
    g

/-- One iteration of the path-transform loop (source lines 424-451).
The accumulator carries `pose_robot_base_frame` (declared once, outside
the loop, at line 416) and the collected list
`global_plan_map_coordinates`.  When the transform throws, the catch
block only logs: control falls through and the STALE value of
`pose_robot_base_frame` (previous iteration's result, or the
default-constructed origin `(0, 0)` before any success) is mapped to a
cell. -/
def pathLoopStep (tfPose : ℕ → Option (ℚ × ℚ)) (sizeMX sizeMY : ℚ)
    (g : Grid) (acc : (ℚ × ℚ) × List (ℤ × ℤ)) (i : ℕ) :
    (ℚ × ℚ) × List (ℤ × ℤ) :=
  let pose := (tfPose i).getD acc.1
  let x := pathCellX g.originX sizeMX g.width pose.1
  let y := pathCellY g.originY sizeMY g.height pose.2
  (pose,
   if pathCellValid g.width g.height x y then acc.2 ++ [(x, y)] else acc.2)

/-- First path loop (source lines 424-451): collect the valid costmap
coordinates of the global plan, in plan order.  `planLen` is
`global_plan_.size()`; pose `i` enters only through the transform oracle
`tfPose`. -/
def collectPathCells (tfPose : ℕ → Option (ℚ × ℚ)) (sizeMX sizeMY : ℚ)
    (g : Grid) (planLen : ℕ) : List (ℤ × ℤ) :=
  ((List.range planLen).foldl (pathLoopStep tfPose sizeMX sizeMY g)
    ((0, 0), [])).2

/-- The value written for the `counter`-th of `total` collected plan
cells (source line 457):
`50 - round((double)counter/(double)(total-1)*50.0)`.
When `total = 1` the divisor `total - 1` is zero, `0.0/0.0` is IEEE
`NaN`, and the conversion of the `NaN`-derived result to `int8_t` is
undefined: embedded as `none`. -/
def pathPixelValue (counter total : ℕ) : Option ℤ :=
  if (total : ℚ) - 1 = 0 then none
  else some (50 - cround ((counter : ℚ) / ((total : ℚ) - 1) * 50))

/-- Second path loop (source lines 453-459), with `total` fixed to
`global_plan_map_coordinates.size()` and `counter` incremented per
iteration; an undefined (`NaN`-derived) write poisons the whole result. -/
def writePathCellsAux (total : ℕ) (counter : ℕ) (cells : List (ℤ × ℤ))
    (g : Grid) : Option Grid :=
  match cells with
  | [] => some g
  | c :: rest =>
    match pathPixelValue counter total with
    | none => none
    | some v => writePathCellsAux total (counter + 1) rest (setCell g c.1 c.2 v)

/-- The path rasterizer's write pass (source lines 453-459). -/
def writePathCells (cells : List (ℤ × ℤ)) (g : Grid) : Option Grid :=
  writePathCellsAux cells.length 0 cells g

/-- A global-plan pose (`geometry_msgs::PoseStamped`): the fields
`setPlan` reads (`pose.position.x/y`). -/
structure PoseW where
  x : ℚ
  y : ℚ
  deriving Repr, DecidableEq

/-- The planner state `setPlan` touches: `global_plan_` and `goal_`. -/
structure PlannerState where
  global_plan : List PoseW
  goalX : ℚ
  goalY : ℚ
  deriving Repr, DecidableEq

/-- `NeuroLocalPlannerWrapper::setPlan` (source lines 102-131): stores
the plan, then reads
`orig_global_plan.at(orig_global_plan.size() - 1)`.  On an empty plan
`size() - 1` wraps around to `SIZE_MAX` and `std::vector::at` throws
`std::out_of_range` (uncaught): embedded as `none`. -/
def setPlan (s : PlannerState) (plan : List PoseW) : Option PlannerState :=
  let s1 := { s with global_plan := plan }
  match plan.get? (plan.length - 1) with
  | none => none
  | some last => some { s1 with goalX := last.x, goalY := last.y }

/-- One step of the temporal stack buffer (source lines 466-481): if the
accumulation sequence already holds `width*height*depth` cells, publish
it as the stacked unit, bump `seq` and clear it — WITHOUT appending the
incoming grid; otherwise append the incoming grid's whole buffer.
Returns the new message and the emitted stacked unit, if any. -/
def bufferStep (msg : TransitionMsg) (gridData : List ℤ) :
    TransitionMsg × Option (List ℤ) :=
  if msg.state_representation.length = msg.width * msg.height * msg.depth then
    ({ msg with seq := msg.seq + 1, state_representation := [] },
     some msg.state_representation)
  else
    ({ msg with state_representation := msg.state_representation ++ gridData },
     none)

/-- Push a sequence of finished grid buffers through the temporal stack
buffer, one scan at a time, collecting every emitted stacked unit in
order. -/
def pushAll (msg : TransitionMsg) : List (List ℤ) → TransitionMsg × List (List ℤ)
  | [] => (msg, [])
  | gd :: rest =>
    let r := bufferStep msg gd
    let tail := pushAll r.1 rest
    (tail.1, r.2.toList ++ tail.2)

/-- The wrapper state the scan callback touches:
`is_customized_costmap_initialized_`, `customized_costmap_`,
`transition_msg_`. -/
structure WrapperState where
  is_initialized : Bool
  grid : Grid
  transition : TransitionMsg

/-- Sections 2 and 3 of `getLaserScanPoints`: rasterize the scan, then
collect and write the global-plan cells, on an already cleared (or
freshly initialized) grid. -/
def processScan (cosF sinF : ℚ → ℚ) (tr : Transform)
    (tfPose : ℕ → Option (ℚ × ℚ)) (cm : CostmapGeom) (scan : LaserScan)
    (planLen : ℕ) (g : Grid) : Option Grid :=
  let g1 := rasterizeScan cosF sinF tr cm.sizeInMetersX cm.sizeInMetersY scan g
  writePathCells
    (collectPathCells tfPose cm.sizeInMetersX cm.sizeInMetersY g1 planLen) g1

/-- The whole scan callback `getLaserScanPoints` (source lines 332-482):
initialize the grid on the first scan (otherwise clear it), rasterize
scan and path, publish the single-frame grid, and run the temporal stack
buffer step.  Returns the new state, the published single-frame grids
and the published stacked units. -/
def scanUpdate (cosF sinF : ℚ → ℚ) (tr : Transform)
    (tfPose : ℕ → Option (ℚ × ℚ)) (cm : CostmapGeom) (scan : LaserScan)
    (planLen : ℕ) (st : WrapperState) :
    Option (WrapperState × List Grid × List (List ℤ)) :=
  let g0 := if st.is_initialized then clearGrid st.grid
            else initializeCustomizedCostmap cm
  let t0 := if st.is_initialized then st.transition
            else initializeTransitionMsg (initializeCustomizedCostmap cm)
  match processScan cosF sinF tr tfPose cm scan planLen g0 with
  | none => none
  | some gf =>
    let r := bufferStep t0 gf.data
    some (⟨true, gf, r.1⟩, [gf], r.2.toList)

/-- Specification-side description of the write discipline of the second
path loop: the value left at cell `(a, b)` after the `counter`-th and
later writes, starting from `old` — the LAST write in iteration order
wins. -/
def lastVal (total : ℕ) (counter : ℕ) (cells : List (ℤ × ℤ)) (a b : ℤ)
    (old : ℤ) : ℤ :=
  match cells with
  | [] => old
  | c :: rest =>
    lastVal total (counter + 1) rest a b
      (if c = (a, b) then 50 - cround ((counter : ℚ) / ((total : ℚ) - 1) * 50)
       else old)

/-- Modelled from the spec: "Transform failures per-pose are reported and
that pose is skipped (its cell is left as whatever the Scan Rasterizer or
background left it)" — the skip semantics the specification describes for
the path-transform loop, for comparison with `collectPathCells` (the
source's actual loop, which falls through on a caught transform
exception). -/
def collectPathCellsSpecSkip (tfPose : ℕ → Option (ℚ × ℚ))
    (sizeMX sizeMY : ℚ) (g : Grid) (planLen : ℕ) : List (ℤ × ℤ) :=
  ((List.range planLen).filterMap tfPose).foldl
    (fun acc pose =>
      let x := pathCellX g.originX sizeMX g.width pose.1
      let y := pathCellY g.originY sizeMY g.height pose.2
      if pathCellValid g.width g.height x y then acc ++ [(x, y)] else acc)
    []

/-- A small test costmap geometry: 4×4 cells, 1 m/cell, 4m×4m. -/
def cm4 : CostmapGeom := ⟨4, 4, 1, 4, 4⟩

/-- A small 4×4, 4m×4m test grid: origin `(-2, -2)`, buffer all 70. -/
def grid4 : Grid := ⟨4, 4, 1, -2, -2, List.replicate 16 70⟩

/-- The grid of the specification's scenarios: 80×80 cells at resolution
0.05 (4m×4m), origin `(-2, -2)`, 6400 cells of 70. -/
def grid80 : Grid := ⟨80, 80, 1/20, -2, -2, List.replicate 6400 70⟩

/-- A fresh transition message for a 1×1 grid (depth 4). -/
def tmsg1 : TransitionMsg := ⟨1, 1, 4, 0, []⟩

/-- Transform oracle for the transform-failure scenario: the transforms of
poses 0 and 2 succeed (grid-frame positions `(-1.5, -1.5)` and
`(0.5, 0.5)`), the transform of pose 1 fails. -/
def tfC4 : ℕ → Option (ℚ × ℚ) :=
  fun i => if i = 0 then some (-3/2, -3/2)
           else if i = 2 then some (1/2, 1/2) else none

end NeuroWrapper

namespace NeuroWrapper

/-- C9: the per-scan clear step sets every cell of the grid buffer to the
background value 70 while leaving the grid geometry (width, height,
resolution, origin) unchanged and leaving the buffer length equal to
`width*height`. -/
theorem clearGrid_resets (g : Grid) :
    (clearGrid g).width = g.width ∧ (clearGrid g).height = g.height ∧
    (clearGrid g).resolution = g.resolution ∧
    (clearGrid g).originX = g.originX ∧ (clearGrid g).originY = g.originY ∧
    (clearGrid g).data = List.replicate (g.width * g.height) 70 ∧
    (clearGrid g).data.length = g.width * g.height ∧
    ∀ i, i < g.width * g.height → (clearGrid g).data.getD i 0 = 70 := by
  refine ⟨rfl, rfl, rfl, rfl, rfl, rfl, by simp [clearGrid], ?_⟩
  intro i hi
  simp [clearGrid, List.getD, List.getElem?_replicate, hi]

/-- C6: both the scan rasterizer (source lines 401-403) and the path
rasterizer (source lines 442-444) use the world-to-cell mapping
`cell = round(((p - origin) / sizeMeters) * cells - 0.5)` with C round
semantics (nearest integer, halfway away from zero), and declare the
result invalid (no cell written) exactly when the x-index falls outside
`[0, width)` or the y-index falls outside `[0, height)`. -/
theorem worldToCell_unified :
    (∀ (origin sizeM : ℚ) (w : ℕ) (p : ℚ),
        scanCellX origin sizeM w p = specWorldToCell origin sizeM w p ∧
        scanCellY origin sizeM w p = specWorldToCell origin sizeM w p ∧
        pathCellX origin sizeM w p = specWorldToCell origin sizeM w p ∧
        pathCellY origin sizeM w p = specWorldToCell origin sizeM w p) ∧
    (∀ (w h : ℕ) (x y : ℤ),
        scanCellValid w h x y = pathCellValid w h x y ∧
        (scanCellValid w h x y = true ↔
          (0 ≤ x ∧ x < (w : ℤ)) ∧ (0 ≤ y ∧ y < (h : ℤ)))) ∧
    (∀ q : ℚ, |(cround q : ℚ) - q| ≤ 1/2) := by
  refine ⟨fun origin sizeM w p => ⟨rfl, rfl, rfl, rfl⟩,
    fun w h x y => ⟨rfl, ?_⟩, ?_⟩
  · simp only [scanCellValid, Bool.and_eq_true, decide_eq_true_eq]
    tauto
  · intro q
    rcases le_or_lt 0 q with hq | hq
    · rw [cround, if_pos hq]
      rw [abs_le]
      constructor
      · have := Int.sub_one_lt_floor (q + 1/2)
        linarith
      · have := Int.floor_le (q + 1/2)
        linarith
    · rw [cround, if_neg (not_le.mpr hq)]
      rw [abs_le]
      constructor
      · have := Int.le_ceil (q - 1/2)
        linarith
      · have := Int.ceil_lt_add_one (q - 1/2)
        linarith

/-- C2 (code bug): for a path rasterized with exactly one valid in-bounds
cell, source line 457 computes `50 - round(0.0/0.0*50.0)`: the division
`counter/(total-1)` is `0.0/0.0 = NaN`, and the `NaN`-derived value
assigned to the cell is undefined, not a defined integer. -/
theorem pathValue_single_point_undefined :
    pathPixelValue 0 1 = none ∧ writePathCells [(40, 40)] grid80 = none := by
  constructor
  · simp [pathPixelValue]
  · simp [writePathCells, writePathCellsAux, pathPixelValue]

/-- C5 (code bug): on an empty reference path, the path rasterizer is a
defined no-op (no valid cell is collected and no write occurs), but
`setPlan` (source line 117) evaluates
`orig_global_plan.at(orig_global_plan.size() - 1)` with `size() = 0`,
i.e. `at(SIZE_MAX)`, which throws an uncaught `std::out_of_range`. -/
theorem setPlan_empty_plan_throws :
    setPlan ⟨[], 0, 0⟩ [] = none ∧
    collectPathCells (fun _ => none) 4 4 grid4 0 = [] ∧
    writePathCells [] grid4 = some grid4 :=
  ⟨rfl, rfl, rfl⟩

/-- C1 counterexample: pushing exactly 4 grids into the empty temporal
stack buffer (1×1 grid, depth 4) emits NOTHING — the accumulation then
holds all `depth*width*height` cells, and emission only happens on the
NEXT push. -/
theorem push_four_no_emission :
    (pushAll tmsg1 [[1], [2], [3], [4]]).2 = [] ∧
    (pushAll tmsg1 [[1], [2], [3], [4]]).1.state_representation
      = [1, 2, 3, 4] := by
  constructor <;> rfl

/-- C1 (amended): the buffer-step check runs BEFORE appending, so pushing
3 grids emits nothing, pushing 4 grids emits nothing and leaves the
accumulation holding the 4 layers (oldest first, length
`depth*width*height`), and the 5th push emits exactly those first 4
layers as one stacked unit, clears the accumulation to empty, and
discards the 5th grid. -/
theorem bufferEmission (w h s : ℕ) (hpos : 0 < w * h)
    (g1 g2 g3 g4 g5 : List ℤ)
    (h1 : g1.length = w * h) (h2 : g2.length = w * h)
    (h3 : g3.length = w * h) (h4 : g4.length = w * h) :
    (pushAll ⟨w, h, 4, s, []⟩ [g1, g2, g3]).2 = [] ∧
    (pushAll ⟨w, h, 4, s, []⟩ [g1, g2, g3, g4]).2 = [] ∧
    (pushAll ⟨w, h, 4, s, []⟩ [g1, g2, g3, g4]).1.state_representation
      = g1 ++ g2 ++ g3 ++ g4 ∧
    (pushAll ⟨w, h, 4, s, []⟩ [g1, g2, g3, g4, g5]).2
      = [g1 ++ g2 ++ g3 ++ g4] ∧
    (pushAll ⟨w, h, 4, s, []⟩ [g1, g2, g3, g4, g5]).1.state_representation
      = [] := by
  have A1 : bufferStep ⟨w, h, 4, s, []⟩ g1 = (⟨w, h, 4, s, g1⟩, none) := by
    rw [show bufferStep ⟨w, h, 4, s, []⟩ g1
        = if ([] : List ℤ).length = w * h * 4
          then (⟨w, h, 4, s + 1, []⟩, some [])
          else (⟨w, h, 4, s, [] ++ g1⟩, none) from rfl,
      if_neg (by rw [List.length_nil]; omega)]
    rw [List.nil_append]
  have A2 : bufferStep ⟨w, h, 4, s, g1⟩ g2 = (⟨w, h, 4, s, g1 ++ g2⟩, none) := by
    rw [show bufferStep ⟨w, h, 4, s, g1⟩ g2
        = if g1.length = w * h * 4
          then (⟨w, h, 4, s + 1, []⟩, some g1)
          else (⟨w, h, 4, s, g1 ++ g2⟩, none) from rfl,
      if_neg (by rw [h1]; omega)]
  have A3 : bufferStep ⟨w, h, 4, s, g1 ++ g2⟩ g3
      = (⟨w, h, 4, s, g1 ++ g2 ++ g3⟩, none) := by
    rw [show bufferStep ⟨w, h, 4, s, g1 ++ g2⟩ g3
        = if (g1 ++ g2).length = w * h * 4
          then (⟨w, h, 4, s + 1, []⟩, some (g1 ++ g2))
          else (⟨w, h, 4, s, g1 ++ g2 ++ g3⟩, none) from rfl,
      if_neg (by rw [List.length_append, h1, h2]; omega)]
  have A4 : bufferStep ⟨w, h, 4, s, g1 ++ g2 ++ g3⟩ g4
      = (⟨w, h, 4, s, g1 ++ g2 ++ g3 ++ g4⟩, none) := by
    rw [show bufferStep ⟨w, h, 4, s, g1 ++ g2 ++ g3⟩ g4
        = if (g1 ++ g2 ++ g3).length = w * h * 4
          then (⟨w, h, 4, s + 1, []⟩, some (g1 ++ g2 ++ g3))
          else (⟨w, h, 4, s, g1 ++ g2 ++ g3 ++ g4⟩, none) from rfl,
      if_neg (by rw [List.length_append, List.length_append, h1, h2, h3]; omega)]
  have A5 : bufferStep ⟨w, h, 4, s, g1 ++ g2 ++ g3 ++ g4⟩ g5
      = (⟨w, h, 4, s + 1, []⟩, some (g1 ++ g2 ++ g3 ++ g4)) := by
    rw [show bufferStep ⟨w, h, 4, s, g1 ++ g2 ++ g3 ++ g4⟩ g5
        = if (g1 ++ g2 ++ g3 ++ g4).length = w * h * 4
          then (⟨w, h, 4, s + 1, []⟩, some (g1 ++ g2 ++ g3 ++ g4))
          else (⟨w, h, 4, s, g1 ++ g2 ++ g3 ++ g4 ++ g5⟩, none) from rfl,
      if_pos (by
        rw [List.length_append, List.length_append, List.length_append,
          h1, h2, h3, h4]
        omega)]
  refine ⟨?_, ?_, ?_, ?_, ?_⟩ <;>
    simp only [pushAll, A1, A2, A3, A4, A5, Option.toList,
      List.nil_append, List.append_nil]

/-- Unfolding of the path rasterizer's cell-validity guard. -/
theorem pathCellValid_iff (w h : ℕ) (x y : ℤ) :
    pathCellValid w h x y = true ↔
      0 ≤ x ∧ 0 ≤ y ∧ x < (w : ℤ) ∧ y < (h : ℤ) := by
  simp only [pathCellValid, Bool.and_eq_true, decide_eq_true_eq]
  tauto

/-- A valid cell's buffer index `x + y*width` is below `width*height`. -/
theorem cellIndex_lt (w h : ℕ) (x y : ℤ) (hx : 0 ≤ x) (hy : 0 ≤ y)
    (hxw : x < (w : ℤ)) (hyh : y < (h : ℤ)) :
    (x + y * (w : ℤ)).toNat < w * h := by
  have h1 : y * (w : ℤ) ≤ ((h : ℤ) - 1) * (w : ℤ) :=
    mul_le_mul_of_nonneg_right (by omega) (Int.natCast_nonneg w)
  have key : x + y * (w : ℤ) < ((w * h : ℕ) : ℤ) := by
    push_cast
    nlinarith
  have hnn : (0 : ℤ) ≤ x + y * (w : ℤ) := by positivity
  rw [← Nat.cast_lt (α := ℤ), Int.toNat_of_nonneg hnn]
  exact key

/-- Distinct valid cells have distinct buffer indices. -/
theorem cellIndex_inj (w : ℕ) (x y u v : ℤ) (hx : 0 ≤ x) (hxw : x < (w : ℤ))
    (hy : 0 ≤ y) (hu : 0 ≤ u) (huw : u < (w : ℤ)) (hv : 0 ≤ v)
    (hne : (x, y) ≠ (u, v)) :
    (x + y * (w : ℤ)).toNat ≠ (u + v * (w : ℤ)).toNat := by
  intro hEq
  have hw0 : (0 : ℤ) < (w : ℤ) := lt_of_le_of_lt hx hxw
  have hnn1 : (0 : ℤ) ≤ x + y * (w : ℤ) := by positivity
  have hnn2 : (0 : ℤ) ≤ u + v * (w : ℤ) := by positivity
  have hInt : x + y * (w : ℤ) = u + v * (w : ℤ) := by omega
  have r1 : (x + y * (w : ℤ)) % (w : ℤ) = x := by
    rw [Int.add_mul_emod_self, Int.emod_eq_of_lt hx hxw]
  have r2 : (u + v * (w : ℤ)) % (w : ℤ) = u := by
    rw [Int.add_mul_emod_self, Int.emod_eq_of_lt hu huw]
  have exu : x = u := by rw [← r1, ← r2, hInt]
  have eyv : y = v := by
    have hmul : y * (w : ℤ) = v * (w : ℤ) := by omega
    exact mul_right_cancel₀ (ne_of_gt hw0) hmul
  exact hne (by rw [exu, eyv])

/-- Reading back the cell just written. -/
theorem getCell_setCell_self (g : Grid) (x y v : ℤ)
    (hidx : (x + y * (g.width : ℤ)).toNat < g.data.length) :
    getCell (setCell g x y v) x y = v := by
  simp [getCell, setCell, List.getD, List.getElem?_set_self, hidx]

/-- Writing one cell leaves every other buffer index unchanged. -/
theorem getCell_setCell_ne (g : Grid) (x y a b v : ℤ)
    (hne : (x + y * (g.width : ℤ)).toNat ≠ (a + b * (g.width : ℤ)).toNat) :
    getCell (setCell g x y v) a b = getCell g a b := by
  simp [getCell, setCell, List.getD, List.getElem?_set_ne hne]

/-- The second path loop preserves geometry and buffer length. -/
theorem writePathCellsAux_geom (total : ℕ) :
    ∀ (cells : List (ℤ × ℤ)) (counter : ℕ) (g g2 : Grid),
      writePathCellsAux total counter cells g = some g2 →
      g2.width = g.width ∧ g2.height = g.height ∧
      g2.data.length = g.data.length := by
  intro cells
  induction cells with
  | nil =>
    intro counter g g2 hw
    cases hw
    exact ⟨rfl, rfl, rfl⟩
  | cons c rest ih =>
    intro counter g g2 hw
    rw [writePathCellsAux] at hw
    cases hv : pathPixelValue counter total with
    | none => rw [hv] at hw; cases hw
    | some v =>
      rw [hv] at hw
      have := ih (counter + 1) (setCell g c.1 c.2 v) g2 hw
      simpa [setCell] using this

/-- After the second path loop, every valid cell holds the value of the
LAST write (in iteration order) that targeted it, or its previous value
if no write targeted it. -/
theorem writePathCellsAux_getCell (total : ℕ) :
    ∀ (cells : List (ℤ × ℤ)) (counter : ℕ) (g g2 : Grid) (a b : ℤ),
      writePathCellsAux total counter cells g = some g2 →
      pathCellValid g.width g.height a b = true →
      (∀ c ∈ cells, pathCellValid g.width g.height c.1 c.2 = true) →
      g.width * g.height ≤ g.data.length →
      getCell g2 a b = lastVal total counter cells a b (getCell g a b) := by
  intro cells
  induction cells with
  | nil =>
    intro counter g g2 a b hw _ _ _
    cases hw
    rfl
  | cons c rest ih =>
    intro counter g g2 a b hw hab hall hlen
    rw [writePathCellsAux] at hw
    cases hv : pathPixelValue counter total with
    | none => rw [hv] at hw; cases hw
    | some v =>
      rw [hv] at hw
      obtain ⟨ha1, ha2, ha3, ha4⟩ := (pathCellValid_iff _ _ a b).mp hab
      obtain ⟨hc1, hc2, hc3, hc4⟩ :=
        (pathCellValid_iff _ _ c.1 c.2).mp (hall c (by simp))
      have hvv : v = 50 - cround ((counter : ℚ) / ((total : ℚ) - 1) * 50) := by
        rw [pathPixelValue] at hv
        by_cases hz : ((total : ℚ) - 1) = 0
        · rw [if_pos hz] at hv; cases hv
        · rw [if_neg hz] at hv
          exact (Option.some.injEq _ _).mp hv.symm |>.symm ▸ rfl
      have hrec := ih (counter + 1) (setCell g c.1 c.2 v) g2 a b hw
        (by simpa [setCell] using hab)
        (by intro d hd; simpa [setCell] using hall d (by simp [hd]))
        (by simpa [setCell] using hlen)
      rw [hrec]
      rw [lastVal]
      by_cases hcab : c = (a, b)
      · rw [if_pos hcab]
        have : getCell (setCell g c.1 c.2 v) a b = v := by
          rw [hcab]
          exact getCell_setCell_self g a b v
            (lt_of_lt_of_le (cellIndex_lt g.width g.height a b ha1 ha2 ha3 ha4)
              hlen)
        rw [this, hvv]
      · rw [if_neg hcab]
        have : getCell (setCell g c.1 c.2 v) a b = getCell g a b :=
          getCell_setCell_ne g c.1 c.2 a b v
            (cellIndex_inj g.width c.1 c.2 a b hc1 hc3 hc2 ha1 ha3 ha2
              (by simpa using hcab))
        rw [this]

/-- `cround` on a nonnegative argument is `⌊q + 1/2⌋`. -/
theorem cround_eq_floor {q : ℚ} (h : 0 ≤ q) : cround q = ⌊q + 1/2⌋ := by
  rw [cround, if_pos h]

/-- C round is monotone. -/
theorem cround_mono {p q : ℚ} (h : p ≤ q) : cround p ≤ cround q := by
  rcases le_or_lt 0 p with hp | hp
  · have hq : (0 : ℚ) ≤ q := le_trans hp h
    rw [cround, if_pos hp, cround, if_pos hq]
    exact Int.floor_le_floor (by linarith)
  · rcases le_or_lt 0 q with hq | hq
    · rw [cround, if_neg (not_le.mpr hp), cround, if_pos hq]
      have h1 : (⌈p - 1/2⌉ : ℤ) ≤ 0 := Int.ceil_le.mpr (by push_cast; linarith)
      have h2 : (0 : ℤ) ≤ ⌊q + 1/2⌋ := Int.floor_nonneg.mpr (by linarith)
      omega
    · rw [cround, if_neg (not_le.mpr hp), cround, if_neg (not_le.mpr hq)]
      exact Int.ceil_le_ceil (by linarith)

/-- The three gradient values for a path of 3 valid cells. -/
theorem pathPixelValue_three :
    pathPixelValue 0 3 = some 50 ∧ pathPixelValue 1 3 = some 25 ∧
    pathPixelValue 2 3 = some 0 := by
  refine ⟨?_, ?_, ?_⟩ <;>
    rw [pathPixelValue, if_neg (by norm_num)] <;>
    norm_num [cround_eq_floor]

/-- C1 amended-claim witness at `w = h = 1`, `s = 0`, concrete one-cell
grids. -/
theorem bufferEmission_witness :
    (pushAll ⟨1, 1, 4, 0, []⟩ [[1], [2], [3]]).2 = [] ∧
    (pushAll ⟨1, 1, 4, 0, []⟩ [[1], [2], [3], [4]]).2 = [] ∧
    (pushAll ⟨1, 1, 4, 0, []⟩ [[1], [2], [3], [4]]).1.state_representation
      = [1] ++ [2] ++ [3] ++ [4] ∧
    (pushAll ⟨1, 1, 4, 0, []⟩ [[1], [2], [3], [4], [5]]).2
      = [[1] ++ [2] ++ [3] ++ [4]] ∧
    (pushAll ⟨1, 1, 4, 0, []⟩ [[1], [2], [3], [4], [5]]).1.state_representation
      = [] :=
  bufferEmission 1 1 0 (by decide) [1] [2] [3] [4] [5] rfl rfl rfl rfl

/-- C7: for a reference path producing exactly 3 valid cells, the path
rasterizer writes, in path order, the values 50 then 25 then 0 (the i-th
valid cell gets `50 - round(i/(N-1)*50)`); at pairwise-distinct valid
cells the final buffer reads back exactly 50, 25, 0; in general every
valid cell ends at the value of the LAST write that targeted it (later
writes in iteration order win), and a later write's value is never
larger than an earlier one's (the closer-to-goal value remains). -/
theorem pathGradient :
    (∀ (g : Grid) (c0 c1 c2 : ℤ × ℤ),
        writePathCells [c0, c1, c2] g =
          some (setCell (setCell (setCell g c0.1 c0.2 50) c1.1 c1.2 25)
            c2.1 c2.2 0)) ∧
    (∀ (g g2 : Grid) (c0 c1 c2 : ℤ × ℤ),
        writePathCells [c0, c1, c2] g = some g2 →
        (∀ c ∈ [c0, c1, c2], pathCellValid g.width g.height c.1 c.2 = true) →
        g.width * g.height ≤ g.data.length →
        c0 ≠ c1 → c0 ≠ c2 → c1 ≠ c2 →
        getCell g2 c0.1 c0.2 = 50 ∧ getCell g2 c1.1 c1.2 = 25 ∧
          getCell g2 c2.1 c2.2 = 0) ∧
    (∀ (g g2 : Grid) (cells : List (ℤ × ℤ)) (a b : ℤ),
        writePathCells cells g = some g2 →
        pathCellValid g.width g.height a b = true →
        (∀ c ∈ cells, pathCellValid g.width g.height c.1 c.2 = true) →
        g.width * g.height ≤ g.data.length →
        getCell g2 a b = lastVal cells.length 0 cells a b (getCell g a b)) ∧
    (∀ (total i j : ℕ), 2 ≤ total → i ≤ j →
        50 - cround ((j : ℚ) / ((total : ℚ) - 1) * 50) ≤
          50 - cround ((i : ℚ) / ((total : ℚ) - 1) * 50)) := by
  obtain ⟨p0, p1, p2⟩ := pathPixelValue_three
  refine ⟨?_, ?_, ?_, ?_⟩
  · intro g c0 c1 c2
    show writePathCellsAux 3 0 [c0, c1, c2] g = _
    simp only [writePathCellsAux, p0, p1, p2, Nat.reduceAdd]
  · intro g g2 c0 c1 c2 hw hall hlen h01 h02 h12
    have hw3 : writePathCellsAux 3 0 [c0, c1, c2] g = some g2 := hw
    refine ⟨?_, ?_, ?_⟩
    · have k := writePathCellsAux_getCell 3 [c0, c1, c2] 0 g g2 c0.1 c0.2
        hw3 (by simpa using hall c0 (by simp)) hall hlen
      rw [k, lastVal, if_pos (by simp), lastVal,
        if_neg (by simp only [Prod.mk.eta]; exact fun hh => h01 hh.symm),
        lastVal,
        if_neg (by simp only [Prod.mk.eta]; exact fun hh => h02 hh.symm),
        lastVal]
      norm_num [cround_eq_floor]
    · have k := writePathCellsAux_getCell 3 [c0, c1, c2] 0 g g2 c1.1 c1.2
        hw3 (by simpa using hall c1 (by simp)) hall hlen
      rw [k, lastVal,
        if_neg (by simp only [Prod.mk.eta]; exact fun hh => h01 hh),
        lastVal, if_pos (by simp), lastVal,
        if_neg (by simp only [Prod.mk.eta]; exact fun hh => h12 hh.symm),
        lastVal]
      norm_num [cround_eq_floor]
    · have k := writePathCellsAux_getCell 3 [c0, c1, c2] 0 g g2 c2.1 c2.2
        hw3 (by simpa using hall c2 (by simp)) hall hlen
      rw [k, lastVal,
        if_neg (by simp only [Prod.mk.eta]; exact fun hh => h02 hh),
        lastVal,
        if_neg (by simp only [Prod.mk.eta]; exact fun hh => h12 hh),
        lastVal, if_pos (by simp), lastVal]
      norm_num [cround_eq_floor]
  · intro g g2 cells a b hw hab hall hlen
    exact writePathCellsAux_getCell cells.length cells 0 g g2 a b hw hab
      hall hlen
  · intro total i j h2t hij
    have hden : (0 : ℚ) < (total : ℚ) - 1 := by
      have h2 : (2 : ℚ) ≤ (total : ℚ) := by exact_mod_cast h2t
      linarith
    have hmono : cround ((i : ℚ) / ((total : ℚ) - 1) * 50) ≤
        cround ((j : ℚ) / ((total : ℚ) - 1) * 50) := by
      apply cround_mono
      have hij2 : (i : ℚ) ≤ (j : ℚ) := by exact_mod_cast hij
      gcongr
    omega

/-- The two gradient values for a path of 2 valid cells. -/
theorem pathPixelValue_two :
    pathPixelValue 0 2 = some 50 ∧ pathPixelValue 1 2 = some 0 := by
  constructor <;>
    rw [pathPixelValue, if_neg (by norm_num)] <;>
    norm_num [cround_eq_floor]

/-- Cell mapping of the two successfully transformed poses of the
transform-failure scenario on the 4×4 grid. -/
theorem pathCell_evalA :
    pathCellX (-2) 4 4 ((-3/2 : ℚ)) = 0 ∧ pathCellY (-2) 4 4 ((-3/2 : ℚ)) = 0 ∧
    pathCellX (-2) 4 4 ((1/2 : ℚ)) = 2 ∧ pathCellY (-2) 4 4 ((1/2 : ℚ)) = 2 := by
  refine ⟨?_, ?_, ?_, ?_⟩ <;>
    simp only [pathCellX, pathCellY] <;>
    norm_num [cround_eq_floor]

/-- C4 (code bug): when the transform of a pose fails, the source's catch
block (lines 435-438) only logs and control FALLS THROUGH: the stale
`pose_robot_base_frame` of the previous pose is mapped and collected
again, so the failed pose is NOT skipped.  For a 3-pose plan whose middle
transform fails (`tfC4`), the code collects `[(0,0), (0,0), (2,2)]` —
a duplicate write derived from the failed pose — and the final value at
cell `(0,0)` is 25; under the specified skip semantics the collection is
`[(0,0), (2,2)]` and cell `(0,0)` keeps the value 50. -/
theorem pathTransformFailure_not_skipped :
    collectPathCells tfC4 4 4 grid4 3 = [(0, 0), (0, 0), (2, 2)] ∧
    collectPathCellsSpecSkip tfC4 4 4 grid4 3 = [(0, 0), (2, 2)] ∧
    (writePathCells [(0, 0), (0, 0), (2, 2)] grid4).map
      (fun g2 => getCell g2 0 0) = some 25 ∧
    (writePathCells [(0, 0), (2, 2)] grid4).map
      (fun g2 => getCell g2 0 0) = some 50 := by
  obtain ⟨e1, e2, e3, e4⟩ := pathCell_evalA
  obtain ⟨p30, p31, p32⟩ := pathPixelValue_three
  obtain ⟨p20, p21⟩ := pathPixelValue_two
  have t0 : tfC4 0 = some (-3/2, -3/2) := rfl
  have t1 : tfC4 1 = none := rfl
  have t2 : tfC4 2 = some (1/2, 1/2) := rfl
  have vA : pathCellValid 4 4 0 0 = true := by decide
  have vB : pathCellValid 4 4 2 2 = true := by decide
  refine ⟨?_, ?_, ?_, ?_⟩
  · rw [collectPathCells, show List.range 3 = [0, 1, 2] from rfl]
    simp only [List.foldl, pathLoopStep, t0, t1, t2, Option.getD_some,
      Option.getD_none, grid4, e1, e2, e3, e4, vA, vB]
    simp
  · rw [collectPathCellsSpecSkip,
      show List.filterMap tfC4 (List.range 3) = [(-3/2, -3/2), (1/2, 1/2)]
        from rfl]
    simp only [List.foldl, grid4, e1, e2, e3, e4, vA, vB]
    simp
  · have w1 : writePathCells [((0 : ℤ), (0 : ℤ)), (0, 0), (2, 2)] grid4
        = some (setCell (setCell (setCell grid4 0 0 50) 0 0 25) 2 2 0) := by
      show writePathCellsAux 3 0 _ _ = _
      simp only [writePathCellsAux, p30, p31, p32, Nat.reduceAdd]
    rw [w1]
    exact congrArg some (by decide)
  · have w2 : writePathCells [((0 : ℤ), (0 : ℤ)), (2, 2)] grid4
        = some (setCell (setCell grid4 0 0 50) 2 2 0) := by
      show writePathCellsAux 2 0 _ _ = _
      simp only [writePathCellsAux, p20, p21, Nat.reduceAdd]
    rw [w2]
    exact congrArg some (by decide)

/-- The scan rasterizer on a single-sample scan whose range passes the
`(range_min, range_max)` filter reduces to one sample-processing step. -/
theorem rasterizeScan_single (cosF sinF : ℚ → ℚ) (r : ℚ)
    (hr1 : (1/10 : ℚ) < r) (hr2 : r < 10) :
    rasterizeScan cosF sinF ⟨0, 0, 0⟩ 4 4 ⟨[r], 1/10, 10, 0, 0⟩ grid80 =
      processScanSample cosF sinF ⟨0, 0, 0⟩ 4 4 0 0 0 r grid80 := by
  rw [rasterizeScan, show ([r].enum) = [(0, r)] from rfl]
  simp only [List.foldl]
  rw [if_pos ⟨hr1, hr2⟩]

/-- For angle 0 and the identity transform, one sample-processing step
maps the sample at range `r` to the cell
`(scanCellX (-2) 4 80 r, scanCellY (-2) 4 80 0)` of the 80×80 grid and
writes 100 there when valid. -/
theorem processScanSample_eval (cosF sinF : ℚ → ℚ)
    (hc : cosF 0 = 1) (hs : sinF 0 = 0) (r : ℚ) :
    processScanSample cosF sinF ⟨0, 0, 0⟩ 4 4 0 0 0 r grid80 =
      (if scanCellValid 80 80 (scanCellX (-2) 4 80 r) (scanCellY (-2) 4 80 0)
       then setCell grid80 (scanCellX (-2) 4 80 r) (scanCellY (-2) 4 80 0) 100
       else grid80) := by
  rw [processScanSample]
  simp only [grid80, Nat.cast_zero, zero_mul, add_zero, zero_add, hc, hs,
    one_mul, mul_one, mul_zero, sub_zero]

/-- C3 counterexample: on the exact intermediate values, C `round` gives
`round((1-(-2))/4*80-0.5) = round(59.5) = 60` (not 59) and
`round((0-(-2))/4*80-0.5) = round(39.5) = 40` (not 39); the rasterized
grid leaves the claimed cell `(59, 39)` at the background value 70. -/
theorem scanRange1_not_claimed_cell :
    cround ((1 - (-2)) / 4 * 80 - 1/2) = 60 ∧
    cround ((0 - (-2)) / 4 * 80 - 1/2) = 40 ∧
    getCell (rasterizeScan (fun _ => 1) (fun _ => 0) ⟨0, 0, 0⟩ 4 4
      ⟨[1], 1/10, 10, 0, 0⟩ grid80) 59 39 = 70 := by
  refine ⟨by norm_num [cround_eq_floor], by norm_num [cround_eq_floor], ?_⟩
  rw [rasterizeScan_single _ _ 1 (by norm_num) (by norm_num),
    processScanSample_eval _ _ rfl rfl 1,
    show scanCellX (-2) 4 80 1 = 60 from by
      rw [scanCellX]; norm_num [cround_eq_floor],
    show scanCellY (-2) 4 80 0 = 40 from by
      rw [scanCellY]; norm_num [cround_eq_floor],
    if_pos (by decide : scanCellValid 80 80 60 40 = true),
    getCell_setCell_ne grid80 60 40 59 39 100 (by decide)]
  norm_num [getCell, grid80, List.getD, List.getElem?_replicate]

/-- C3 (amended): for a single sample of range 1.0 (inside
`(0.1, 10.0)`), angle 0, identity transform, on the 80×80 grid at
resolution 0.05 with origin `(-2, -2)`, the scan rasterizer sets the
cell `(round((1-(-2))/4*80-0.5), round((0-(-2))/4*80-0.5)) = (60, 40)`
(C round semantics on the exact intermediate values: round(59.5) = 60,
round(39.5) = 40) to 100. -/
theorem scanRange1_cell (cosF sinF : ℚ → ℚ) (hc : cosF 0 = 1)
    (hs : sinF 0 = 0) :
    scanCellX (-2) 4 80 1 = 60 ∧ scanCellY (-2) 4 80 0 = 40 ∧
    rasterizeScan cosF sinF ⟨0, 0, 0⟩ 4 4 ⟨[1], 1/10, 10, 0, 0⟩ grid80
      = setCell grid80 60 40 100 ∧
    getCell (setCell grid80 60 40 100) 60 40 = 100 := by
  have hx : scanCellX (-2) 4 80 1 = 60 := by
    rw [scanCellX]; norm_num [cround_eq_floor]
  have hy : scanCellY (-2) 4 80 0 = 40 := by
    rw [scanCellY]; norm_num [cround_eq_floor]
  refine ⟨hx, hy, ?_, ?_⟩
  · rw [rasterizeScan_single cosF sinF 1 (by norm_num) (by norm_num),
      processScanSample_eval cosF sinF hc hs 1, hx, hy,
      if_pos (by decide : scanCellValid 80 80 60 40 = true)]
  · exact getCell_setCell_self grid80 60 40 100
      (by norm_num [grid80, List.length_replicate])

/-- C3 witness at trigonometric functions with the real values at angle
0. -/
theorem scanRange1_cell_witness :
    scanCellX (-2) 4 80 1 = 60 ∧ scanCellY (-2) 4 80 0 = 40 ∧
    rasterizeScan (fun _ => 1) (fun _ => 0) ⟨0, 0, 0⟩ 4 4
      ⟨[1], 1/10, 10, 0, 0⟩ grid80 = setCell grid80 60 40 100 ∧
    getCell (setCell grid80 60 40 100) 60 40 = 100 :=
  scanRange1_cell (fun _ => 1) (fun _ => 0) rfl rfl

/-- C8: for a single sample of range 2.0 (inside `(0.1, 10.0)`, so the
range filter passes), angle 0, identity transform, on the 80×80 grid at
resolution 0.05 (4m×4m): the computed cell `(80, 40)` is out of bounds
(`80 < 80` fails), the sample is silently dropped (no write), and the
grid remains entirely at the background value 70. -/
theorem scanRange2_dropped (cosF sinF : ℚ → ℚ) (hc : cosF 0 = 1)
    (hs : sinF 0 = 0) :
    ((1/10 : ℚ) < 2 ∧ (2 : ℚ) < 10) ∧
    scanCellX (-2) 4 80 2 = 80 ∧
    scanCellValid 80 80 80 40 = false ∧
    rasterizeScan cosF sinF ⟨0, 0, 0⟩ 4 4 ⟨[2], 1/10, 10, 0, 0⟩ grid80
      = grid80 ∧
    grid80.data = List.replicate 6400 70 := by
  have hx : scanCellX (-2) 4 80 2 = 80 := by
    rw [scanCellX]; norm_num [cround_eq_floor]
  have hy : scanCellY (-2) 4 80 0 = 40 := by
    rw [scanCellY]; norm_num [cround_eq_floor]
  refine ⟨⟨by norm_num, by norm_num⟩, hx, by decide, ?_, rfl⟩
  rw [rasterizeScan_single cosF sinF 2 (by norm_num) (by norm_num),
    processScanSample_eval cosF sinF hc hs 2, hx, hy,
    if_neg (by decide : ¬ scanCellValid 80 80 80 40 = true)]

/-- C8 witness at trigonometric functions with the real values at angle
0. -/
theorem scanRange2_dropped_witness :
    ((1/10 : ℚ) < 2 ∧ (2 : ℚ) < 10) ∧
    scanCellX (-2) 4 80 2 = 80 ∧
    scanCellValid 80 80 80 40 = false ∧
    rasterizeScan (fun _ => 1) (fun _ => 0) ⟨0, 0, 0⟩ 4 4
      ⟨[2], 1/10, 10, 0, 0⟩ grid80 = grid80 ∧
    grid80.data = List.replicate 6400 70 :=
  scanRange2_dropped (fun _ => 1) (fun _ => 0) rfl rfl

/-- C7 witness: the 3-cell gradient on the concrete 4×4 grid at cells
(0,0), (1,0), (2,0) reads back 50, 25, 0. -/
theorem pathGradient_witness :
    getCell (setCell (setCell (setCell grid4 0 0 50) 1 0 25) 2 0 0) 0 0 = 50 ∧
    getCell (setCell (setCell (setCell grid4 0 0 50) 1 0 25) 2 0 0) 1 0 = 25 ∧
    getCell (setCell (setCell (setCell grid4 0 0 50) 1 0 25) 2 0 0) 2 0 = 0 :=
  pathGradient.2.1 grid4 _ (0, 0) (1, 0) (2, 0)
    (pathGradient.1 grid4 (0, 0) (1, 0) (2, 0))
    (by decide) (by decide) (by decide) (by decide) (by decide)

/-- C9 witness on the concrete 4×4 grid, reading back cell index 0. -/
theorem clearGrid_resets_witness :
    (clearGrid grid4).data.getD 0 0 = 70 :=
  (clearGrid_resets grid4).2.2.2.2.2.2.2 0 (by decide)

/-- C10: on the very first scan received
(`is_customized_costmap_initialized_` false), the grid is initialized
from the costmap geometry with every cell at 70 (and initialization acts
as the clear step: clearing the freshly initialized grid is a no-op),
and that same scan is then rasterized and its single-frame grid
published in the same update: the update from any uninitialized state
equals the update from the initialized state holding the fresh grid and
fresh transition message, and when the rasterization pass is defined it
publishes exactly that pass's grid and feeds it to the stack buffer. -/
theorem firstScan_processed (cosF sinF : ℚ → ℚ) (tr : Transform)
    (tfPose : ℕ → Option (ℚ × ℚ)) (cm : CostmapGeom) (scan : LaserScan)
    (planLen : ℕ) (st : WrapperState) (h0 : st.is_initialized = false) :
    (initializeCustomizedCostmap cm).width = cm.sizeInCellsX ∧
    (initializeCustomizedCostmap cm).height = cm.sizeInCellsY ∧
    (initializeCustomizedCostmap cm).data
      = List.replicate (cm.sizeInCellsX * cm.sizeInCellsY) 70 ∧
    clearGrid (initializeCustomizedCostmap cm)
      = initializeCustomizedCostmap cm ∧
    scanUpdate cosF sinF tr tfPose cm scan planLen st =
      scanUpdate cosF sinF tr tfPose cm scan planLen
        ⟨true, initializeCustomizedCostmap cm,
          initializeTransitionMsg (initializeCustomizedCostmap cm)⟩ ∧
    (∀ gf, processScan cosF sinF tr tfPose cm scan planLen
        (initializeCustomizedCostmap cm) = some gf →
      scanUpdate cosF sinF tr tfPose cm scan planLen st =
        some (⟨true, gf,
          (bufferStep (initializeTransitionMsg (initializeCustomizedCostmap cm))
            gf.data).1⟩, [gf],
          (bufferStep (initializeTransitionMsg (initializeCustomizedCostmap cm))
            gf.data).2.toList)) := by
  have hclear : clearGrid (initializeCustomizedCostmap cm)
      = initializeCustomizedCostmap cm := by
    simp [clearGrid, initializeCustomizedCostmap]
  refine ⟨rfl, rfl, rfl, hclear, ?_, ?_⟩
  · rw [scanUpdate, scanUpdate, h0]
    simp [hclear]
  · intro gf hgf
    rw [scanUpdate, h0]
    simp [hgf]

/-- C10 witness: first-scan update on a concrete uninitialized state. -/
theorem firstScan_processed_witness :
    clearGrid (initializeCustomizedCostmap cm4)
      = initializeCustomizedCostmap cm4 ∧
    scanUpdate (fun _ => 1) (fun _ => 0) ⟨0, 0, 0⟩ (fun _ => none) cm4
        ⟨[], 1/10, 10, 0, 0⟩ 0 ⟨false, grid4, tmsg1⟩ =
      scanUpdate (fun _ => 1) (fun _ => 0) ⟨0, 0, 0⟩ (fun _ => none) cm4
        ⟨[], 1/10, 10, 0, 0⟩ 0
        ⟨true, initializeCustomizedCostmap cm4,
          initializeTransitionMsg (initializeCustomizedCostmap cm4)⟩ :=
  ⟨(firstScan_processed (fun _ => 1) (fun _ => 0) ⟨0, 0, 0⟩ (fun _ => none)
      cm4 ⟨[], 1/10, 10, 0, 0⟩ 0 ⟨false, grid4, tmsg1⟩ rfl).2.2.2.1,
   (firstScan_processed (fun _ => 1) (fun _ => 0) ⟨0, 0, 0⟩ (fun _ => none)
      cm4 ⟨[], 1/10, 10, 0, 0⟩ 0 ⟨false, grid4, tmsg1⟩ rfl).2.2.2.2.1⟩

end NeuroWrapper
